import Mathlib

/-!
Verification of the ext4 FUSE adapter (`src/main.rs`) against its
natural-language specification.

The development shallowly embeds the adapter layer: the storage engine
(the external `ext4_rs` crate) is modelled as an oracle — its node
records, open results and status codes are explicit parameters of the
handler functions, and its field accessors/mutators are modelled as
plain record reads/writes, exactly the view the adapter code has of
them.  Machine integers are `Nat` with explicit `% 2 ^ w` at the points
where the Rust code performs a narrowing cast.
-/

namespace Ext4Fuse

/-- Error codes defined at the top of `src/main.rs` (POSIX numbering). -/
def ENOENT : Int := 2

/-- Generic I/O error code (`src/main.rs` line 63). -/
def EIO : Int := 5

/-- The "no space" code used by `mknod` for unsupported node types. -/
def ENOSPC : Int := 28

/-- Success status of the storage engine's unlink primitive
(constant of the engine crate, value 0). -/
def EOK : Nat := 0

/-- Node-type mode constants from `src/main.rs` lines 95-102. -/
def S_IFIFO : Nat := 4096

def S_IFCHR : Nat := 8192

def S_IFBLK : Nat := 24576

def S_IFDIR : Nat := 16384

def S_IFREG : Nat := 32768

def S_IFLNK : Nat := 40960

def S_IFSOCK : Nat := 49152

def S_IFMT : Nat := 61440

/-- Type-bits mask of an ext4 inode mode (engine constant, `0xF000`,
numerically identical to `S_IFMT`). -/
def EXT4_INODE_MODE_TYPE_MASK : Nat := 61440

/-- Block size shared with the storage engine (engine constant, 4096 bytes). -/
def BLOCK_SIZE : Nat := 4096

/-- A wall-clock instant, as Rust's `SystemTime`: a signed distance from the
Unix epoch, here kept as total nanoseconds. -/
structure SystemTime where
  nanosSinceEpoch : Int
deriving DecidableEq, Repr

/-- The epoch origin (`UNIX_EPOCH`). -/
def UNIX_EPOCH : SystemTime := ⟨0⟩

/-- Embedding of `timestamp_to_system_time` (`src/main.rs` lines 539-541):
`UNIX_EPOCH + Duration::from_secs(timestamp as u64)`. -/
def timestamp_to_system_time (timestamp : Nat) : SystemTime :=
  ⟨(timestamp : Int) * 1000000000⟩

/-- Embedding of `system_time_to_secs` (`src/main.rs` lines 543-547):
`time.duration_since(UNIX_EPOCH).unwrap_or(Duration::from_secs(0)).as_secs() as u32`.
A time before the epoch yields the zero duration; `as_secs` floors to whole
seconds; the final `as u32` cast reduces modulo `2 ^ 32`. -/
def system_time_to_secs (time : SystemTime) : Nat :=
  (if 0 ≤ time.nanosSinceEpoch then (time.nanosSinceEpoch / 1000000000).toNat else 0) %
    4294967296

/-- Protocol-facing node kinds (`fuser::FileType`). -/
inductive FileType where
  | RegularFile
  | Directory
  | CharDevice
  | BlockDevice
  | NamedPipe
  | Socket
  | Symlink
deriving DecidableEq, Repr

/-- The adapter's view of an engine inode record: exactly the fields the
adapter reads or writes through the engine's accessors
(`mode`, `uid`, `gid`, `inode_get_size`, the four timestamp getters/setters,
`ext4_inode_get_links_cnt`, `ext4_inode_get_blocks_count`, flags). -/
structure Ext4Inode where
  mode : Nat
  uid : Nat
  gid : Nat
  size : Nat
  atime : Nat
  mtime : Nat
  ctime : Nat
  crtime : Nat
  flags : Nat
  links_cnt : Nat
  blocks_count : Nat
deriving DecidableEq, Repr

/-- The engine's open-file handle (`Ext4File`): the fields the adapter uses. -/
structure Ext4File where
  inode : Nat
  fsize : Nat
  fpos : Nat
deriving DecidableEq, Repr

/-- The protocol attribute record (`fuser::FileAttr`). -/
structure FileAttr where
  ino : Nat
  size : Nat
  blocks : Nat
  atime : SystemTime
  mtime : SystemTime
  ctime : SystemTime
  crtime : SystemTime
  kind : FileType
  perm : Nat
  nlink : Nat
  uid : Nat
  gid : Nat
  rdev : Nat
  flags : Nat
  blksize : Nat
deriving DecidableEq, Repr

/-- Inode identifier the `lookup` handler passes to the engine
(`src/main.rs` lines 183-195): the host parent is remapped from the
reserved root value 1 to the engine root 2, then narrowed by `as u32`. -/
def lookup_engine_parent (parent : Nat) : Nat :=
  (if parent = 1 then 2 else parent) % 4294967296

/-- Inode identifier the `getattr` handler passes to the engine
(`src/main.rs` lines 244-251): root remap 1 ↦ 2, then `as u32`. -/
def getattr_engine_ino (ino : Nat) : Nat :=
  (if ino = 1 then 2 else ino) % 4294967296

/-- Inode identifier the `readdir` handler passes to the engine
(`src/main.rs` lines 385-391): root remap 1 ↦ 2, no narrowing cast. -/
def readdir_engine_ino (ino : Nat) : Nat :=
  if ino = 1 then 2 else ino

/-- Inode identifier the `setattr` handler passes to the engine
(`src/main.rs` line 315): `inode as u32`, with no root remapping. -/
def setattr_engine_ino (ino : Nat) : Nat :=
  ino % 4294967296

/-- Inode identifier the `read` handler passes to the engine
(`src/main.rs` line 362): `file.inode = ino as u32`, with no root remapping. -/
def read_engine_ino (ino : Nat) : Nat :=
  ino % 4294967296

/-- Inode identifier the `write` handler passes to the engine
(`src/main.rs` line 418): `file.inode = ino as u32`, with no root remapping. -/
def write_engine_ino (ino : Nat) : Nat :=
  ino % 4294967296

/-- Embedding of the node-type derivation repeated in `lookup`
(`src/main.rs` lines 201-214), `getattr` (lines 253-261) and `setattr`
(lines 320-326): mask the mode with the type-bits mask and compare the
masked value against the directory and regular-file patterns; everything
else falls back to a regular file. -/
def file_type_of_mode (mode : Nat) : FileType :=
  let t := mode &&& EXT4_INODE_MODE_TYPE_MASK
  if t = S_IFDIR then FileType.Directory
  else if t = S_IFREG then FileType.RegularFile
  else FileType.RegularFile

/-- The attribute record `lookup` replies with on success
(`src/main.rs` lines 219-236): sizes from the open-file handle, all four
timestamps the `UNIX_EPOCH` placeholder, permission the constant
`0o644`, owner/group the placeholder constants 501/20. -/
def lookup_reply_attr (f : Ext4File) (node : Ext4Inode) : FileAttr :=
  { ino := f.inode
    size := f.fsize
    blocks := f.fsize / BLOCK_SIZE
    atime := UNIX_EPOCH
    mtime := UNIX_EPOCH
    ctime := UNIX_EPOCH
    crtime := UNIX_EPOCH
    kind := file_type_of_mode node.mode
    perm := 420
    nlink := 1
    uid := 501
    gid := 20
    rdev := 0
    flags := 0
    blksize := BLOCK_SIZE }

/-- Embedding of the `lookup` handler's reply construction
(`src/main.rs` lines 216-240).  `openRes` is the engine's
`ext4_open_from` outcome (`some f` on success); `node` is the engine
record `get_inode_ref` returns for `f.inode`, from whose mode the kind
is derived.  On failure the handler replies `ENOENT`. -/
def lookup_handler (_parent : Nat) (openRes : Option Ext4File) (node : Ext4Inode) :
    Except Int FileAttr :=
  match openRes with
  | some f => Except.ok (lookup_reply_attr f node)
  | none => Except.error ENOENT

/-- Embedding of the `getattr` handler (`src/main.rs` lines 243-281).
`node` is the engine record at `getattr_engine_ino ino`.  All four reply
timestamps are the static `UNIX_EPOCH` placeholder, the permission field
is the constant `0o777`, and owner/group are the constants 501/20. -/
def getattr_handler (ino : Nat) (node : Ext4Inode) : FileAttr :=
  let inode := if ino = 1 then 2 else ino
  { ino := inode
    size := node.size
    blocks := node.size / BLOCK_SIZE
    atime := UNIX_EPOCH
    mtime := UNIX_EPOCH
    ctime := UNIX_EPOCH
    crtime := UNIX_EPOCH
    kind := file_type_of_mode node.mode
    perm := 511
    nlink := node.links_cnt
    uid := 501
    gid := 20
    rdev := 0
    flags := 0
    blksize := BLOCK_SIZE }

/-- A `setattr` time field: either a specific wall-clock time or
"the current time" (`fuser::TimeOrNow`). -/
inductive TimeOrNow where
  | SpecificTime (t : SystemTime)
  | Now
deriving DecidableEq, Repr

/-- The sparse attribute update assembled by the `setattr` handler
(`src/main.rs` lines 549-561, `InodeAttr`). -/
structure InodeAttr where
  mode : Option Nat
  uid : Option Nat
  gid : Option Nat
  size : Option Nat
  atime : Option TimeOrNow
  mtime : Option TimeOrNow
  ctime : Option SystemTime
  crtime : Option SystemTime
  chgtime : Option SystemTime
  bkuptime : Option SystemTime
  flags : Option Nat
deriving DecidableEq, Repr

/-- Embedding of `Ext4Fuse::set_attr` (`src/main.rs` lines 563-607):
the attribute-mutation pipeline.  Each present field is applied in the
source's order (the `as u16` casts on mode/uid/gid are kept as
`% 2 ^ 16`); `chgtime` and `bkuptime` have no counterpart on the engine
inode record and are never read.  The second component is the sequence
of `write_back_inode` calls together with the record each one persists:
the source performs exactly one, after all mutations. -/
def set_attr (node : Ext4Inode) (attr : InodeAttr) (nowT : SystemTime) :
    Ext4Inode × List Ext4Inode :=
  let now := system_time_to_secs nowT
  let n := node
  let n := match attr.mode with
    | some m => { n with mode := m % 65536 }
    | none => n
  let n := match attr.uid with
    | some u => { n with uid := u % 65536 }
    | none => n
  let n := match attr.gid with
    | some g => { n with gid := g % 65536 }
    | none => n
  let n := match attr.size with
    | some s => { n with size := s }
    | none => n
  let n := match attr.atime with
    | some (TimeOrNow.SpecificTime t) => { n with atime := system_time_to_secs t }
    | some TimeOrNow.Now => { n with atime := now }
    | none => n
  let n := match attr.mtime with
    | some (TimeOrNow.SpecificTime t) => { n with mtime := system_time_to_secs t }
    | some TimeOrNow.Now => { n with mtime := now }
    | none => n
  let n := match attr.ctime with
    | some t => { n with ctime := system_time_to_secs t }
    | none => n
  let n := match attr.crtime with
    | some t => { n with crtime := system_time_to_secs t }
    | none => n
  let n := match attr.flags with
    | some f => { n with flags := f }
    | none => n
  (n, [n])

/-- Embedding of the `setattr` handler's reply construction
(`src/main.rs` lines 318-346), built from the inode record re-fetched
after the mutation pipeline ran: size and blocks come from two distinct
engine fields (`inode_get_size` and `ext4_inode_get_blocks_count`), the
four timestamps go through `timestamp_to_system_time`, and the
permission bits are the stored mode masked to the low 9 bits. -/
def setattr_reply (ino : Nat) (node : Ext4Inode) : FileAttr :=
  { ino := ino
    size := node.size
    blocks := node.blocks_count
    atime := timestamp_to_system_time node.atime
    mtime := timestamp_to_system_time node.mtime
    ctime := timestamp_to_system_time node.ctime
    crtime := timestamp_to_system_time node.crtime
    kind := file_type_of_mode node.mode
    perm := node.mode &&& 511
    nlink := node.links_cnt
    uid := node.uid
    gid := node.gid
    rdev := 0
    flags := 0
    blksize := BLOCK_SIZE }

/-- Embedding of the whole `setattr` handler (`src/main.rs` lines
283-347): run the mutation pipeline on the engine record `node` at
`setattr_engine_ino ino`, then reply with the attribute record of the
updated node.  Returns the pipeline result (new node and write-back
log) together with the reply. -/
def setattr_handler (ino : Nat) (attr : InodeAttr) (node : Ext4Inode)
    (nowT : SystemTime) : (Ext4Inode × List Ext4Inode) × FileAttr :=
  let r := set_attr node attr nowT
  (r, setattr_reply ino r.1)

/-- A directory entry as the adapter consumes it from the engine's
`read_dir_entry` (`src/main.rs` lines 391-400): target inode, name
(already decoded by the engine's `get_name`) and the `get_de_type` tag. -/
structure DirEntry where
  inode : Nat
  name : String
  de_type : Nat
deriving DecidableEq, Repr

/-- One `reply.add` call made by `readdir`: target inode, continuation
cookie, kind and name. -/
structure ReaddirItem where
  ino : Nat
  cookie : Nat
  kind : FileType
  name : String
deriving DecidableEq, Repr

/-- Directory-entry type tag mapping in `readdir`
(`src/main.rs` lines 395-399): 1 ↦ regular file, 2 ↦ directory,
anything else ↦ regular file. -/
def de_kind (detype : Nat) : FileType :=
  match detype with
  | 1 => FileType.RegularFile
  | 2 => FileType.Directory
  | _ => FileType.RegularFile

/-- Embedding of the `readdir` enumeration loop (`src/main.rs` lines
392-401): `entries.iter().enumerate().skip(offset)` — entries are
numbered from zero over the full engine-provided list, the first
`offset` numbered entries are skipped, and entry `i` is emitted with
continuation cookie `i + 1`. -/
def readdir_handler (entries : List DirEntry) (offset : Nat) : List ReaddirItem :=
  (entries.enum.drop offset).map fun p =>
    { ino := p.2.inode, cookie := p.1 + 1, kind := de_kind p.2.de_type, name := p.2.name }

/-- The attribute record `mknod` replies with on success
(`src/main.rs` lines 476-499): zero size and blocks, epoch-placeholder
timestamps, kind from the requested type bits, permission
`(mode & !umask) as u16`, and owner/group taken from the request's
caller identity (`_req.uid()`, `_req.gid()`). -/
def mknod_reply_attr (mode umask rdev ru rg : Nat) (f : Ext4File) : FileAttr :=
  let file_type := mode &&& S_IFMT
  let actual_mode := mode &&& (umask ^^^ 4294967295)
  { ino := f.inode
    size := 0
    blocks := 0
    atime := UNIX_EPOCH
    mtime := UNIX_EPOCH
    ctime := UNIX_EPOCH
    crtime := UNIX_EPOCH
    kind :=
      if file_type = S_IFREG then FileType.RegularFile
      else if file_type = S_IFCHR then FileType.CharDevice
      else if file_type = S_IFBLK then FileType.BlockDevice
      else if file_type = S_IFIFO then FileType.NamedPipe
      else if file_type = S_IFSOCK then FileType.Socket
      else FileType.RegularFile
    perm := actual_mode % 65536
    nlink := 1
    uid := ru
    gid := rg
    rdev := rdev
    flags := 0
    blksize := 4096 }

/-- Embedding of the `mknod` handler (`src/main.rs` lines 449-507).
The requested type is `mode & S_IFMT`; anything outside
{regular, symlink, directory} is rejected with `ENOSPC` before any
engine call.  Otherwise `openRes` is the engine's create-mode `ext4_open`
outcome; failure maps to `EIO`.  The first component records whether the
engine was called at all.  `ru`/`rg` are the caller identity taken from
the request (`_req.uid()`, `_req.gid()`). -/
def mknod_handler (mode umask rdev ru rg : Nat) (openRes : Option Ext4File) :
    Bool × Except Int FileAttr :=
  let file_type := mode &&& S_IFMT
  if file_type ≠ S_IFREG ∧ file_type ≠ S_IFLNK ∧ file_type ≠ S_IFDIR then
    (false, Except.error ENOSPC)
  else
    match openRes with
    | some f => (true, Except.ok (mknod_reply_attr mode umask rdev ru rg f))
    | none => (true, Except.error EIO)

/-- Embedding of the `unlink` handler (`src/main.rs` lines 426-445).
`openRes` is the engine's resolution (`ext4_open`) of the target name;
`unlinkStatus` is the status the engine's `ext4_unlink` would return.
The first component records whether the engine unlink primitive was
invoked. -/
def unlink_handler (openRes : Option Ext4File) (unlinkStatus : Nat) :
    Bool × Except Int Unit :=
  match openRes with
  | some _ =>
      if unlinkStatus = EOK then (true, Except.ok ())
      else (true, Except.error EIO)
  | none => (false, Except.error ENOENT)

/-- A concrete open-file handle used by witnesses and counterexamples. -/
def sampleFile : Ext4File := { inode := 7, fsize := 9000, fpos := 0 }

/-- A concrete engine inode record used by witnesses and
counterexamples.  Its blocks-count field (24) deliberately differs from
`size / BLOCK_SIZE` (9000 / 4096 = 2), as the two on-disk fields are
independent (the engine's blocks count is in 512-byte sectors). -/
def sampleNode : Ext4Inode :=
  { mode := 33188, uid := 3, gid := 4, size := 9000, atime := 11, mtime := 12,
    ctime := 13, crtime := 14, flags := 0, links_cnt := 2, blocks_count := 24 }

/-- The sparse update with every field absent. -/
def emptyAttrUpdate : InodeAttr :=
  { mode := none, uid := none, gid := none, size := none, atime := none,
    mtime := none, ctime := none, crtime := none, chgtime := none,
    bkuptime := none, flags := none }

/-- The sparse update containing only `size = 0`. -/
def sizeZeroUpdate : InodeAttr :=
  { mode := none, uid := none, gid := none, size := some 0, atime := none,
    mtime := none, ctime := none, crtime := none, chgtime := none,
    bkuptime := none, flags := none }

/-- C1 counterexample: the claim says every handler translates the
reserved root identifier 1 to the engine root 2 before any engine call;
at input 1 the `read`, `write` and `setattr` handlers pass 1 to the
engine unchanged. -/
theorem C1_read_write_setattr_keep_root :
    read_engine_ino 1 ≠ 2 ∧ write_engine_ino 1 ≠ 2 ∧ setattr_engine_ino 1 ≠ 2 := by
  decide

/-- C1 (amended): `lookup`, `getattr` and `readdir` translate the
reserved root identifier 1 to the engine root 2 and pass every other
identifier (within the 32-bit range) unchanged; `setattr`, `read` and
`write` pass the identifier to the engine unchanged in every case,
including the reserved root value 1. -/
theorem C1_root_translation (i : Nat) (hi : i < 4294967296) :
    lookup_engine_parent 1 = 2 ∧ getattr_engine_ino 1 = 2 ∧ readdir_engine_ino 1 = 2 ∧
    (i ≠ 1 → lookup_engine_parent i = i ∧ getattr_engine_ino i = i ∧
      readdir_engine_ino i = i) ∧
    setattr_engine_ino i = i ∧ read_engine_ino i = i ∧ write_engine_ino i = i := by
  refine ⟨by decide, by decide, by decide, fun h1 => ?_, ?_, ?_, ?_⟩
  · exact ⟨by simp [lookup_engine_parent, if_neg h1, Nat.mod_eq_of_lt hi],
      by simp [getattr_engine_ino, if_neg h1, Nat.mod_eq_of_lt hi],
      by simp [readdir_engine_ino, if_neg h1]⟩
  · simp [setattr_engine_ino, Nat.mod_eq_of_lt hi]
  · simp [read_engine_ino, Nat.mod_eq_of_lt hi]
  · simp [write_engine_ino, Nat.mod_eq_of_lt hi]

/-- Witness for C1 (amended) at the concrete identifier 5. -/
theorem C1_root_translation_witness :
    (lookup_engine_parent 1 = 2 ∧ getattr_engine_ino 1 = 2 ∧ readdir_engine_ino 1 = 2) ∧
    (lookup_engine_parent 5 = 5 ∧ getattr_engine_ino 5 = 5 ∧ readdir_engine_ino 5 = 5) ∧
    (setattr_engine_ino 5 = 5 ∧ read_engine_ino 5 = 5 ∧ write_engine_ino 5 = 5) := by
  have h := C1_root_translation 5 (by decide)
  exact ⟨⟨h.1, h.2.1, h.2.2.1⟩, h.2.2.2.1 (by decide), h.2.2.2.2⟩

/-- C8 counterexample: the whole-second non-negative time of
2^32 seconds after the epoch does not survive the round trip — the
`as u32` cast in `system_time_to_secs` wraps it to 0. -/
theorem C8_round_trip_fails_at_2_pow_32 :
    timestamp_to_system_time
        (system_time_to_secs ⟨(4294967296 : Int) * 1000000000⟩) ≠
      ⟨(4294967296 : Int) * 1000000000⟩ := by
  decide

/-- C8 (amended): for every whole-second, non-negative wall-clock time
whose second count is below 2^32, converting to the engine's
unsigned-second representation and back reproduces the time exactly. -/
theorem C8_round_trip (s : Nat) (hs : s < 4294967296) :
    timestamp_to_system_time (system_time_to_secs ⟨(s : Int) * 1000000000⟩) =
      ⟨(s : Int) * 1000000000⟩ := by
  have h0 : (0 : Int) ≤ (s : Int) * 1000000000 := by positivity
  simp only [system_time_to_secs, timestamp_to_system_time, if_pos h0]
  rw [Int.mul_ediv_cancel _ (by norm_num)]
  simp [Nat.mod_eq_of_lt hs]

/-- Witness for C8 (amended) at 3 seconds after the epoch. -/
theorem C8_round_trip_witness :
    timestamp_to_system_time (system_time_to_secs ⟨(3 : Int) * 1000000000⟩) =
      ⟨(3 : Int) * 1000000000⟩ :=
  C8_round_trip 3 (by decide)

/-- C9: the type derivation masks the mode with the type-bits mask and
yields directory for the directory pattern, regular file for the
regular-file pattern, and regular file for every other bit pattern; it
is a total function with no error path. -/
theorem C9_type_derivation (mode : Nat) :
    (mode &&& EXT4_INODE_MODE_TYPE_MASK = S_IFDIR →
      file_type_of_mode mode = FileType.Directory) ∧
    (mode &&& EXT4_INODE_MODE_TYPE_MASK = S_IFREG →
      file_type_of_mode mode = FileType.RegularFile) ∧
    (mode &&& EXT4_INODE_MODE_TYPE_MASK ≠ S_IFDIR →
      file_type_of_mode mode = FileType.RegularFile) := by
  refine ⟨fun h => ?_, fun h => ?_, fun h => ?_⟩
  · simp only [file_type_of_mode]
    rw [if_pos h]
  · have h2 : mode &&& EXT4_INODE_MODE_TYPE_MASK ≠ S_IFDIR := by
      rw [h]; decide
    simp only [file_type_of_mode]
    rw [if_neg h2, if_pos h]
  · simp only [file_type_of_mode]
    rw [if_neg h]
    exact ite_self _

/-- Witness for C9 at a directory mode (0o40755), a regular-file mode
(0o100644), and a block-device mode (0o60000, the fallback case). -/
theorem C9_type_derivation_witness :
    file_type_of_mode 16877 = FileType.Directory ∧
    file_type_of_mode 33188 = FileType.RegularFile ∧
    file_type_of_mode 24576 = FileType.RegularFile :=
  ⟨(C9_type_derivation 16877).1 (by decide),
   (C9_type_derivation 33188).2.1 (by decide),
   (C9_type_derivation 24576).2.2 (by decide)⟩

set_option maxHeartbeats 2000000 in
/-- C3: the attribute-mutation pipeline applies exactly the update
fields that are present (with the source's `as u16` narrowing on
mode/uid/gid and the timestamp conversions), leaves every node field
whose update entry is absent unchanged (`chgtime` and `bkuptime` have no
stored counterpart and are never read), performs the inode write-back
unconditionally and exactly once, with the fully-mutated record; and an
update containing only `size = 0` changes nothing but the size. -/
theorem C3_setattr_pipeline (node : Ext4Inode) (attr : InodeAttr) (nowT : SystemTime) :
    (((set_attr node attr nowT).1.mode =
        match attr.mode with | some m => m % 65536 | none => node.mode) ∧
     ((set_attr node attr nowT).1.uid =
        match attr.uid with | some u => u % 65536 | none => node.uid) ∧
     ((set_attr node attr nowT).1.gid =
        match attr.gid with | some g => g % 65536 | none => node.gid) ∧
     ((set_attr node attr nowT).1.size =
        match attr.size with | some s => s | none => node.size) ∧
     ((set_attr node attr nowT).1.atime =
        match attr.atime with
        | some (TimeOrNow.SpecificTime t) => system_time_to_secs t
        | some TimeOrNow.Now => system_time_to_secs nowT
        | none => node.atime) ∧
     ((set_attr node attr nowT).1.mtime =
        match attr.mtime with
        | some (TimeOrNow.SpecificTime t) => system_time_to_secs t
        | some TimeOrNow.Now => system_time_to_secs nowT
        | none => node.mtime) ∧
     ((set_attr node attr nowT).1.ctime =
        match attr.ctime with | some t => system_time_to_secs t | none => node.ctime) ∧
     ((set_attr node attr nowT).1.crtime =
        match attr.crtime with | some t => system_time_to_secs t | none => node.crtime) ∧
     ((set_attr node attr nowT).1.flags =
        match attr.flags with | some f => f | none => node.flags) ∧
     ((set_attr node attr nowT).1.links_cnt = node.links_cnt) ∧
     ((set_attr node attr nowT).1.blocks_count = node.blocks_count) ∧
     ((set_attr node attr nowT).2 = [(set_attr node attr nowT).1])) ∧
    (set_attr node sizeZeroUpdate nowT).1 = { node with size := 0 } := by
  constructor
  · rcases attr with ⟨m, u, g, s, a, mt, c, cr, ch, bk, fl⟩
    rcases m with _ | m <;> rcases u with _ | u <;> rcases g with _ | g <;>
      rcases s with _ | s <;> rcases a with _ | (t1 | _) <;>
      rcases mt with _ | (t2 | _) <;> rcases c with _ | c <;>
      rcases cr with _ | cr <;> rcases fl with _ | fl <;>
      exact ⟨rfl, rfl, rfl, rfl, rfl, rfl, rfl, rfl, rfl, rfl, rfl, rfl⟩
  · rfl

/-- C2 counterexample: the claim says every attribute record the
adapter replies with has `blocks = size / BLOCK_SIZE`; the `setattr`
reply takes its blocks field from the engine's blocks-count field
instead, and at `sampleNode` (size 9000, blocks count 24) the two
disagree. -/
theorem C2_setattr_blocks_not_size_div :
    ((setattr_handler 5 emptyAttrUpdate sampleNode ⟨0⟩).2).blocks ≠
      ((setattr_handler 5 emptyAttrUpdate sampleNode ⟨0⟩).2).size / BLOCK_SIZE := by
  decide

/-- C2 (amended): the attribute records replied by `lookup`, `getattr`
and `mknod` satisfy `blocks = size / BLOCK_SIZE` (integer division, for
every size including zero); the `setattr` reply instead reports the
engine inode's stored blocks-count field as its blocks value. -/
theorem C2_blocks_eq_size_div (p i : Nat) (f : Ext4File) (node : Ext4Inode)
    (mode umask rdev ru rg : Nat) (attr : InodeAttr) (nowT : SystemTime)
    (hmode : mode &&& S_IFMT = S_IFREG ∨ mode &&& S_IFMT = S_IFLNK ∨
      mode &&& S_IFMT = S_IFDIR) :
    (∃ a, lookup_handler p (some f) node = Except.ok a ∧
      a.blocks = a.size / BLOCK_SIZE) ∧
    ((getattr_handler i node).blocks = (getattr_handler i node).size / BLOCK_SIZE) ∧
    (∃ b, (mknod_handler mode umask rdev ru rg (some f)).2 = Except.ok b ∧
      b.blocks = b.size / BLOCK_SIZE) ∧
    (((setattr_handler i attr node nowT).2).blocks =
      ((set_attr node attr nowT).1).blocks_count) := by
  have hneg : ¬(mode &&& S_IFMT ≠ S_IFREG ∧ mode &&& S_IFMT ≠ S_IFLNK ∧
      mode &&& S_IFMT ≠ S_IFDIR) := by
    rcases hmode with h | h | h <;>
      simp [h, S_IFREG, S_IFLNK, S_IFDIR]
  refine ⟨⟨lookup_reply_attr f node, rfl, rfl⟩, rfl,
    ⟨mknod_reply_attr mode umask rdev ru rg f, ?_, by simp [mknod_reply_attr]⟩, rfl⟩
  simp only [mknod_handler, if_neg hneg]

/-- Witness for C2 (amended) at concrete inputs. -/
theorem C2_blocks_eq_size_div_witness :
    (∃ a, lookup_handler 3 (some sampleFile) sampleNode = Except.ok a ∧
      a.blocks = a.size / BLOCK_SIZE) ∧
    ((getattr_handler 5 sampleNode).blocks =
      (getattr_handler 5 sampleNode).size / BLOCK_SIZE) ∧
    (∃ b, (mknod_handler 33188 18 0 501 20 (some sampleFile)).2 = Except.ok b ∧
      b.blocks = b.size / BLOCK_SIZE) ∧
    (((setattr_handler 5 emptyAttrUpdate sampleNode ⟨0⟩).2).blocks =
      ((set_attr sampleNode emptyAttrUpdate ⟨0⟩).1).blocks_count) :=
  C2_blocks_eq_size_div 3 5 sampleFile sampleNode 33188 18 0 501 20
    emptyAttrUpdate ⟨0⟩ (Or.inl (by decide))

/-- Concrete directory entries for the readdir scenario. -/
def entryA : DirEntry := { inode := 11, name := "a", de_type := 1 }

/-- Second entry of the readdir scenario. -/
def entryB : DirEntry := { inode := 12, name := "b", de_type := 1 }

/-- Third entry of the readdir scenario (a directory). -/
def entryC : DirEntry := { inode := 13, name := "c", de_type := 2 }

/-- The directory listing ["a", "b", "c"] of the readdir scenario. -/
def abcEntries : List DirEntry := [entryA, entryB, entryC]

/-- C4: for an engine-provided entry list and enumeration offset `k`,
`readdir` replies with exactly the entries from position `k` onward, in
the original order, giving the entry at position `i` the continuation
cookie `i + 1`; in particular, on ["a","b","c"] with offset 1 it yields
exactly ["b","c"] with cookies 2 and 3. -/
theorem C4_readdir_slice (entries : List DirEntry) (k j : Nat) (e : DirEntry)
    (he : entries[k + j]? = some e) :
    (readdir_handler entries k).length = entries.length - k ∧
    (readdir_handler entries k)[j]? =
      some { ino := e.inode, cookie := k + j + 1, kind := de_kind e.de_type,
             name := e.name } ∧
    readdir_handler abcEntries 1 =
      [{ ino := 12, cookie := 2, kind := FileType.RegularFile, name := "b" },
       { ino := 13, cookie := 3, kind := FileType.Directory, name := "c" }] := by
  refine ⟨?_, ?_, ?_⟩
  · simp [readdir_handler]
  · simp [readdir_handler, List.getElem?_drop, List.getElem?_enum, he]
  · rfl

/-- Witness for C4 at the ["a","b","c"] directory, offset 1, index 0. -/
theorem C4_readdir_slice_witness :
    (readdir_handler abcEntries 1).length = abcEntries.length - 1 ∧
    (readdir_handler abcEntries 1)[0]? =
      some { ino := 12, cookie := 2, kind := FileType.RegularFile, name := "b" } ∧
    readdir_handler abcEntries 1 =
      [{ ino := 12, cookie := 2, kind := FileType.RegularFile, name := "b" },
       { ino := 13, cookie := 3, kind := FileType.Directory, name := "c" }] :=
  C4_readdir_slice abcEntries 1 0 entryB rfl

/-- C5: a `mknod` request whose type bits lie outside
{regular file, symlink, directory} is rejected with the "no space" code
before any storage-engine call (so no node is created); for a type
inside the set, an engine create failure is reported as the generic
I/O error code. -/
theorem C5_mknod_reject (mode umask rdev ru rg : Nat) (openRes : Option Ext4File) :
    ((mode &&& S_IFMT ≠ S_IFREG ∧ mode &&& S_IFMT ≠ S_IFLNK ∧
        mode &&& S_IFMT ≠ S_IFDIR) →
      mknod_handler mode umask rdev ru rg openRes = (false, Except.error ENOSPC)) ∧
    ((mode &&& S_IFMT = S_IFREG ∨ mode &&& S_IFMT = S_IFLNK ∨
        mode &&& S_IFMT = S_IFDIR) →
      mknod_handler mode umask rdev ru rg none = (true, Except.error EIO)) := by
  constructor
  · intro h
    simp only [mknod_handler, if_pos h]
  · intro h
    have hneg : ¬(mode &&& S_IFMT ≠ S_IFREG ∧ mode &&& S_IFMT ≠ S_IFLNK ∧
        mode &&& S_IFMT ≠ S_IFDIR) := by
      rcases h with h | h | h <;> simp [h, S_IFREG, S_IFLNK, S_IFDIR]
    simp only [mknod_handler, if_neg hneg]

/-- Witness for C5: a fifo-mode request (0o10644) is rejected with
ENOSPC and no engine call; a regular-file request whose engine create
fails yields EIO. -/
theorem C5_mknod_reject_witness :
    mknod_handler 4516 0 0 501 20 (some sampleFile) = (false, Except.error ENOSPC) ∧
    mknod_handler 33188 0 0 501 20 none = (true, Except.error EIO) :=
  ⟨(C5_mknod_reject 4516 0 0 501 20 (some sampleFile)).1 (by decide),
   (C5_mknod_reject 33188 0 0 501 20 none).2 (Or.inl (by decide))⟩

/-- C6: if resolution of the unlink target fails the handler replies
"no such entry" without invoking the engine's unlink primitive; if
resolution succeeds, a non-success engine unlink status is reported as
the generic I/O error and the success status as an empty success
reply. -/
theorem C6_unlink_errors (st : Nat) (child : Ext4File) :
    (unlink_handler none st = (false, Except.error ENOENT)) ∧
    (st ≠ EOK → unlink_handler (some child) st = (true, Except.error EIO)) ∧
    (st = EOK → unlink_handler (some child) st = (true, Except.ok ())) := by
  refine ⟨rfl, fun h => ?_, fun h => ?_⟩
  · simp only [unlink_handler, if_neg h]
  · simp only [unlink_handler, if_pos h]

/-- Witness for C6 at status 7 (failure) and 0 (success). -/
theorem C6_unlink_errors_witness :
    (unlink_handler none 7 = (false, Except.error ENOENT)) ∧
    (unlink_handler (some sampleFile) 7 = (true, Except.error EIO)) ∧
    (unlink_handler (some sampleFile) 0 = (true, Except.ok ())) :=
  ⟨(C6_unlink_errors 7 sampleFile).1,
   (C6_unlink_errors 7 sampleFile).2.1 (by decide),
   (C6_unlink_errors 0 sampleFile).2.2 rfl⟩

/-- C7 counterexample: the claim says the `getattr` reply derives its
timestamps from the node's stored counters via the Timestamp Bridge;
at `sampleNode` (stored atime 11) the reply's atime is the static
`UNIX_EPOCH` placeholder instead. -/
theorem C7_getattr_timestamps_are_epoch :
    (getattr_handler 5 sampleNode).atime ≠
      timestamp_to_system_time sampleNode.atime := by
  decide

/-- C7 (amended): the `lookup`, `getattr` and `mknod` replies populate
all four timestamps with the epoch origin as a placeholder; only the
`setattr` reply derives the four timestamps, via the Timestamp Bridge,
from the node's stored unsigned-second counters. -/
theorem C7_timestamps (i p : Nat) (f : Ext4File) (node : Ext4Inode)
    (mode umask rdev ru rg : Nat) (attr : InodeAttr) (nowT : SystemTime)
    (hmode : mode &&& S_IFMT = S_IFREG ∨ mode &&& S_IFMT = S_IFLNK ∨
      mode &&& S_IFMT = S_IFDIR) :
    ((getattr_handler i node).atime = UNIX_EPOCH ∧
     (getattr_handler i node).mtime = UNIX_EPOCH ∧
     (getattr_handler i node).ctime = UNIX_EPOCH ∧
     (getattr_handler i node).crtime = UNIX_EPOCH) ∧
    (∃ a, lookup_handler p (some f) node = Except.ok a ∧
      a.atime = UNIX_EPOCH ∧ a.mtime = UNIX_EPOCH ∧
      a.ctime = UNIX_EPOCH ∧ a.crtime = UNIX_EPOCH) ∧
    (∃ b, (mknod_handler mode umask rdev ru rg (some f)).2 = Except.ok b ∧
      b.atime = UNIX_EPOCH ∧ b.mtime = UNIX_EPOCH ∧
      b.ctime = UNIX_EPOCH ∧ b.crtime = UNIX_EPOCH) ∧
    (((setattr_handler i attr node nowT).2).atime =
        timestamp_to_system_time ((set_attr node attr nowT).1).atime ∧
     ((setattr_handler i attr node nowT).2).mtime =
        timestamp_to_system_time ((set_attr node attr nowT).1).mtime ∧
     ((setattr_handler i attr node nowT).2).ctime =
        timestamp_to_system_time ((set_attr node attr nowT).1).ctime ∧
     ((setattr_handler i attr node nowT).2).crtime =
        timestamp_to_system_time ((set_attr node attr nowT).1).crtime) := by
  have hneg : ¬(mode &&& S_IFMT ≠ S_IFREG ∧ mode &&& S_IFMT ≠ S_IFLNK ∧
      mode &&& S_IFMT ≠ S_IFDIR) := by
    rcases hmode with h | h | h <;> simp [h, S_IFREG, S_IFLNK, S_IFDIR]
  refine ⟨⟨rfl, rfl, rfl, rfl⟩,
    ⟨lookup_reply_attr f node, rfl, rfl, rfl, rfl, rfl⟩,
    ⟨mknod_reply_attr mode umask rdev ru rg f, ?_, by simp [mknod_reply_attr],
      by simp [mknod_reply_attr], by simp [mknod_reply_attr],
      by simp [mknod_reply_attr]⟩,
    rfl, rfl, rfl, rfl⟩
  simp only [mknod_handler, if_neg hneg]

/-- Witness for C7 (amended) at concrete inputs. -/
theorem C7_timestamps_witness :
    ((getattr_handler 5 sampleNode).atime = UNIX_EPOCH ∧
     (getattr_handler 5 sampleNode).mtime = UNIX_EPOCH ∧
     (getattr_handler 5 sampleNode).ctime = UNIX_EPOCH ∧
     (getattr_handler 5 sampleNode).crtime = UNIX_EPOCH) ∧
    (∃ a, lookup_handler 3 (some sampleFile) sampleNode = Except.ok a ∧
      a.atime = UNIX_EPOCH ∧ a.mtime = UNIX_EPOCH ∧
      a.ctime = UNIX_EPOCH ∧ a.crtime = UNIX_EPOCH) ∧
    (∃ b, (mknod_handler 33188 18 0 501 20 (some sampleFile)).2 = Except.ok b ∧
      b.atime = UNIX_EPOCH ∧ b.mtime = UNIX_EPOCH ∧
      b.ctime = UNIX_EPOCH ∧ b.crtime = UNIX_EPOCH) ∧
    (((setattr_handler 5 emptyAttrUpdate sampleNode ⟨0⟩).2).atime =
        timestamp_to_system_time ((set_attr sampleNode emptyAttrUpdate ⟨0⟩).1).atime ∧
     ((setattr_handler 5 emptyAttrUpdate sampleNode ⟨0⟩).2).mtime =
        timestamp_to_system_time ((set_attr sampleNode emptyAttrUpdate ⟨0⟩).1).mtime ∧
     ((setattr_handler 5 emptyAttrUpdate sampleNode ⟨0⟩).2).ctime =
        timestamp_to_system_time ((set_attr sampleNode emptyAttrUpdate ⟨0⟩).1).ctime ∧
     ((setattr_handler 5 emptyAttrUpdate sampleNode ⟨0⟩).2).crtime =
        timestamp_to_system_time ((set_attr sampleNode emptyAttrUpdate ⟨0⟩).1).crtime) :=
  C7_timestamps 5 3 sampleFile sampleNode 33188 18 0 501 20
    emptyAttrUpdate ⟨0⟩ (Or.inl (by decide))

/-- C10 counterexample: the claim says successful `mknod` replies carry
fixed placeholder owner/group values; two identical create requests
differing only in the caller identity produce replies whose owner and
group equal each caller's identity, so the values are not fixed
placeholders. -/
theorem C10_mknod_uses_caller_identity :
    (mknod_handler 33188 0 0 1000 55 (some sampleFile)).2 =
      Except.ok (mknod_reply_attr 33188 0 0 1000 55 sampleFile) ∧
    (mknod_handler 33188 0 0 501 20 (some sampleFile)).2 =
      Except.ok (mknod_reply_attr 33188 0 0 501 20 sampleFile) ∧
    (mknod_reply_attr 33188 0 0 1000 55 sampleFile).uid = 1000 ∧
    (mknod_reply_attr 33188 0 0 1000 55 sampleFile).gid = 55 ∧
    (mknod_reply_attr 33188 0 0 501 20 sampleFile).uid = 501 ∧
    (mknod_reply_attr 33188 0 0 501 20 sampleFile).gid = 20 := by
  have hneg : ¬((33188 : Nat) &&& S_IFMT ≠ S_IFREG ∧
      (33188 : Nat) &&& S_IFMT ≠ S_IFLNK ∧ (33188 : Nat) &&& S_IFMT ≠ S_IFDIR) := by
    decide
  exact ⟨by simp only [mknod_handler, if_neg hneg],
    by simp only [mknod_handler, if_neg hneg], rfl, rfl, rfl, rfl⟩

/-- C10 (amended): successful `lookup` replies carry the fixed
placeholder owner/group pair 501/20; successful `mknod` replies carry
the caller identity taken from the request. -/
theorem C10_owner_group (p : Nat) (f : Ext4File) (node : Ext4Inode)
    (mode umask rdev ru rg : Nat)
    (hmode : mode &&& S_IFMT = S_IFREG ∨ mode &&& S_IFMT = S_IFLNK ∨
      mode &&& S_IFMT = S_IFDIR) :
    (∃ a, lookup_handler p (some f) node = Except.ok a ∧
      a.uid = 501 ∧ a.gid = 20) ∧
    (∃ b, (mknod_handler mode umask rdev ru rg (some f)).2 = Except.ok b ∧
      b.uid = ru ∧ b.gid = rg) := by
  have hneg : ¬(mode &&& S_IFMT ≠ S_IFREG ∧ mode &&& S_IFMT ≠ S_IFLNK ∧
      mode &&& S_IFMT ≠ S_IFDIR) := by
    rcases hmode with h | h | h <;> simp [h, S_IFREG, S_IFLNK, S_IFDIR]
  refine ⟨⟨lookup_reply_attr f node, rfl, rfl, rfl⟩,
    ⟨mknod_reply_attr mode umask rdev ru rg f, ?_,
      by simp [mknod_reply_attr], by simp [mknod_reply_attr]⟩⟩
  simp only [mknod_handler, if_neg hneg]

/-- Witness for C10 (amended) at concrete inputs. -/
theorem C10_owner_group_witness :
    (∃ a, lookup_handler 3 (some sampleFile) sampleNode = Except.ok a ∧
      a.uid = 501 ∧ a.gid = 20) ∧
    (∃ b, (mknod_handler 33188 18 0 777 88 (some sampleFile)).2 = Except.ok b ∧
      b.uid = 777 ∧ b.gid = 88) :=
  C10_owner_group 3 sampleFile sampleNode 33188 18 0 777 88 (Or.inl (by decide))

end Ext4Fuse
